import Mathlib

/-!
Verification development for the ePayco checkout SDK (server module).

The TypeScript source is shallowly embedded: JavaScript runtime values that
may be `undefined`/`null` are modelled with `Option`, JavaScript string
truthiness with `jsTruthy`, and the SHA-256 digest used by the signature
verifier is implemented in full over byte lists (`Nat` values below 256,
32-bit words as `Nat` reduced modulo `2 ^ 32`).
-/

namespace EpaycoSdk

/-! ## JavaScript value helpers -/

/-- Truthiness of a JavaScript string-or-undefined value: `undefined`/`null`
(`none`) and the empty string are falsy, every other string is truthy. -/
def jsTruthy : Option String → Bool
  | none => false
  | some s => s ≠ ""

/-- Template-literal interpolation of a string-or-undefined value:
`undefined` renders as the literal text "undefined". -/
def jsInterp : Option String → String
  | none => "undefined"
  | some s => s

/-- The JavaScript `a || b` fallback on an optional string: the right operand
wins exactly when the left is absent or empty (falsy). -/
def jsOrD (o : Option String) (dflt : String) : String :=
  match o with
  | none => dflt
  | some s => if s = "" then dflt else s

/-- JavaScript `toLowerCase()` on the ASCII range (the only range the SDK
feeds it), character by character. -/
def jsToLower (s : String) : String := String.mk (s.data.map Char.toLower)

/-- JavaScript `toUpperCase()` on the ASCII range, character by
character. -/
def jsToUpper (s : String) : String := String.mk (s.data.map Char.toUpper)

/-! ## SHA-256 over byte lists

A faithful executable SHA-256 (FIPS 180-4): bytes are `Nat` values below
256, 32-bit words are `Nat` values reduced modulo `2 ^ 32`. -/

/-- Reduce a natural number to a 32-bit word. -/
def w32 (n : Nat) : Nat := n % 4294967296

/-- Right-rotation of a 32-bit word by `k` bits. -/
def rotr32 (k n : Nat) : Nat :=
  w32 ((n >>> k) ||| (n <<< (32 - k)))

/-- Bitwise complement of a 32-bit word. -/
def not32 (n : Nat) : Nat := n ^^^ 4294967295

/-- SHA-256 `Ch` function. -/
def sha2Ch (x y z : Nat) : Nat := (x &&& y) ^^^ (not32 x &&& z)

/-- SHA-256 `Maj` function. -/
def sha2Maj (x y z : Nat) : Nat := (x &&& y) ^^^ (x &&& z) ^^^ (y &&& z)

/-- SHA-256 big sigma-0. -/
def bigSigma0 (x : Nat) : Nat := rotr32 2 x ^^^ rotr32 13 x ^^^ rotr32 22 x

/-- SHA-256 big sigma-1. -/
def bigSigma1 (x : Nat) : Nat := rotr32 6 x ^^^ rotr32 11 x ^^^ rotr32 25 x

/-- SHA-256 small sigma-0. -/
def smallSigma0 (x : Nat) : Nat := rotr32 7 x ^^^ rotr32 18 x ^^^ (x >>> 3)

/-- SHA-256 small sigma-1. -/
def smallSigma1 (x : Nat) : Nat := rotr32 17 x ^^^ rotr32 19 x ^^^ (x >>> 10)

/-- The 64 SHA-256 round constants (FIPS 180-4 section 4.2.2), written in
decimal. -/
def sha256K : List Nat :=
  [1116352408, 1899447441, 3049323471, 3921009573, 961987163,
   1508970993, 2453635748, 2870763221, 3624381080, 310598401,
   607225278, 1426881987, 1925078388, 2162078206, 2614888103,
   3248222580, 3835390401, 4022224774, 264347078, 604807628,
   770255983, 1249150122, 1555081692, 1996064986, 2554220882,
   2821834349, 2952996808, 3210313671, 3336571891, 3584528711,
   113926993, 338241895, 666307205, 773529912, 1294757372,
   1396182291, 1695183700, 1986661051, 2177026350, 2456956037,
   2730485921, 2820302411, 3259730800, 3345764771, 3516065817,
   3600352804, 4094571909, 275423344, 430227734, 506948616,
   659060556, 883997877, 958139571, 1322822218, 1537002063,
   1747873779, 1955562222, 2024104815, 2227730452, 2361852424,
   2428436474, 2756734187, 3204031479, 3329325298]

/-- Running SHA-256 state: the eight 32-bit hash words (also reused for the
eight working variables of the compression loop). -/
structure Sha256State where
  h0 : Nat
  h1 : Nat
  h2 : Nat
  h3 : Nat
  h4 : Nat
  h5 : Nat
  h6 : Nat
  h7 : Nat
deriving Repr, DecidableEq

/-- The SHA-256 initial hash value (FIPS 180-4 section 5.3.3), in
decimal. -/
def sha256Init : Sha256State :=
  ⟨1779033703, 3144134277, 1013904242, 2773480762,
   1359893119, 2600822924, 528734635, 1541459225⟩

/-- One round of the SHA-256 compression loop: the state holds the working
variables a..h, the pair carries the round constant and the schedule word. -/
def sha256Round (st : Sha256State) (kw : Nat × Nat) : Sha256State :=
  let t1 := w32 (st.h7 + bigSigma1 st.h4 + sha2Ch st.h4 st.h5 st.h6 + kw.1 + kw.2)
  let t2 := w32 (bigSigma0 st.h0 + sha2Maj st.h0 st.h1 st.h2)
  ⟨w32 (t1 + t2), st.h0, st.h1, st.h2, w32 (st.h3 + t1), st.h4, st.h5, st.h6⟩

/-- Group a byte list into big-endian 32-bit words. -/
def bytesToWords : List Nat → List Nat
  | b0 :: b1 :: b2 :: b3 :: rest =>
      (b0 <<< 24 ||| b1 <<< 16 ||| b2 <<< 8 ||| b3) :: bytesToWords rest
  | _ => []

/-- Extend a 16-word message schedule to 64 words; `fuel` counts the words
still to be appended (48 for a full block). -/
def sha256Extend : Nat → List Nat → List Nat
  | 0, ws => ws
  | Nat.succ fuel, ws =>
      let n := ws.length
      let w := w32 (smallSigma1 (ws.getD (n - 2) 0) + ws.getD (n - 7) 0 +
                    smallSigma0 (ws.getD (n - 15) 0) + ws.getD (n - 16) 0)
      sha256Extend fuel (ws ++ [w])

/-- Process one 64-byte block: build the schedule, run the 64 compression
rounds, and add the working variables back into the state. -/
def sha256Block (st : Sha256State) (block : List Nat) : Sha256State :=
  let ws := sha256Extend 48 (bytesToWords block)
  let v := (sha256K.zip ws).foldl sha256Round st
  ⟨w32 (st.h0 + v.h0), w32 (st.h1 + v.h1), w32 (st.h2 + v.h2), w32 (st.h3 + v.h3),
   w32 (st.h4 + v.h4), w32 (st.h5 + v.h5), w32 (st.h6 + v.h6), w32 (st.h7 + v.h7)⟩

/-- Big-endian 8-byte rendering of the message bit length. -/
def lenBytes64 (n : Nat) : List Nat :=
  [n >>> 56 % 256, n >>> 48 % 256, n >>> 40 % 256, n >>> 32 % 256,
   n >>> 24 % 256, n >>> 16 % 256, n >>> 8 % 256, n % 256]

/-- SHA-256 padding: append `0x80`, zero-fill to 56 mod 64, then the 64-bit
big-endian bit length. -/
def sha256Pad (msg : List Nat) : List Nat :=
  let len := msg.length
  let zeros := (64 - (len + 9) % 64) % 64
  msg ++ [0x80] ++ List.replicate zeros 0 ++ lenBytes64 (len * 8)

/-- Split a byte list into consecutive 64-byte chunks; `fuel` bounds the
number of chunks taken (the list length always suffices). -/
def chunks64 : Nat → List Nat → List (List Nat)
  | 0, _ => []
  | _, [] => []
  | Nat.succ fuel, bytes => bytes.take 64 :: chunks64 fuel (bytes.drop 64)

/-- Big-endian 4-byte rendering of a 32-bit word. -/
def wordBytes (w : Nat) : List Nat :=
  [w >>> 24 % 256, w >>> 16 % 256, w >>> 8 % 256, w % 256]

/-- The full SHA-256 digest of a byte list, as its 32 digest bytes. -/
def sha256Bytes (msg : List Nat) : List Nat :=
  let padded := sha256Pad msg
  let st := (chunks64 padded.length padded).foldl sha256Block sha256Init
  wordBytes st.h0 ++ wordBytes st.h1 ++ wordBytes st.h2 ++ wordBytes st.h3 ++
  wordBytes st.h4 ++ wordBytes st.h5 ++ wordBytes st.h6 ++ wordBytes st.h7

/-- UTF-8 encoding of a single character. -/
def utf8EncodeChar (c : Char) : List Nat :=
  let n := c.toNat
  if n < 0x80 then [n]
  else if n < 0x800 then
    [0xC0 ||| (n >>> 6), 0x80 ||| (n &&& 0x3F)]
  else if n < 0x10000 then
    [0xE0 ||| (n >>> 12), 0x80 ||| ((n >>> 6) &&& 0x3F), 0x80 ||| (n &&& 0x3F)]
  else
    [0xF0 ||| (n >>> 18), 0x80 ||| ((n >>> 12) &&& 0x3F),
     0x80 ||| ((n >>> 6) &&& 0x3F), 0x80 ||| (n &&& 0x3F)]

/-- UTF-8 encoding of a string, as a byte list. -/
def utf8Bytes (s : String) : List Nat := s.data.flatMap utf8EncodeChar

/-- Lowercase hexadecimal digit for a value below 16. -/
def hexDigit (n : Nat) : Char :=
  if n < 10 then Char.ofNat (48 + n) else Char.ofNat (87 + n)

/-- Two lowercase hexadecimal digits for one byte. -/
def hexByte (n : Nat) : List Char := [hexDigit (n / 16), hexDigit (n % 16)]

/-- Lowercase hexadecimal rendering of a byte list. -/
def toHexLower (bytes : List Nat) : String := String.mk (bytes.flatMap hexByte)

/-- The lowercase-hex SHA-256 digest of a string, exactly what Node's
`createHash("sha256").update(s).digest("hex")` produces. -/
def sha256Hex (s : String) : String := toHexLower (sha256Bytes (utf8Bytes s))

/-! ## Signature Verifier (`validateEpaycoSignature`, src/server/index.ts)

Each field of the construction data is typed `string` in TypeScript but may
be `undefined`/`null` at runtime (the function guards for exactly that), so
every input is modelled as `Option String`, `none` standing for an
`undefined` or `null` value — the two are indistinguishable to this code. -/

/-- The six-tuple of signature material, mirroring the TypeScript interface
`EpaycoSignatureConstructionData`. -/
structure EpaycoSignatureConstructionData where
  p_cust_id_cliente : Option String
  p_key : Option String
  x_ref_payco : Option String
  x_transaction_id : Option String
  x_amount : Option String
  x_currency_code : Option String
deriving Repr, DecidableEq

/-- The missing-input guard of `validateEpaycoSignature` (source lines
427-441): the received signature and five of the fields are tested by
JavaScript truthiness (`!x`), while `x_amount` alone is tested by identity
against `undefined`/`null`, so the strings "0" and "" count as present
amounts. -/
def signatureMissing (receivedSignature : Option String)
    (c : EpaycoSignatureConstructionData) : Bool :=
  !jsTruthy receivedSignature ||
  !jsTruthy c.p_cust_id_cliente ||
  !jsTruthy c.p_key ||
  !jsTruthy c.x_ref_payco ||
  !jsTruthy c.x_transaction_id ||
  c.x_amount.isNone ||
  !jsTruthy c.x_currency_code

/-- The canonical signing string (source line 443): the six fields joined in
order by `^` via template-literal interpolation. -/
def signatureString (c : EpaycoSignatureConstructionData) : String :=
  jsInterp c.p_cust_id_cliente ++ "^" ++ jsInterp c.p_key ++ "^" ++
  jsInterp c.x_ref_payco ++ "^" ++ jsInterp c.x_transaction_id ++ "^" ++
  jsInterp c.x_amount ++ "^" ++ jsInterp c.x_currency_code

/-- Embedding of `validateEpaycoSignature` (source lines 414-450): reject on the
missing-input guard, otherwise compare the received signature against the
lowercase-hex SHA-256 digest of the canonical signing string by exact
string equality. -/
def validateEpaycoSignature (receivedSignature : Option String)
    (c : EpaycoSignatureConstructionData) : Bool :=
  if signatureMissing receivedSignature c then false
  else decide (receivedSignature = some (sha256Hex (signatureString c)))

/-! ## JSON value trees

The canonicalizer's output object is modelled as an ordered association
list of fields (JavaScript object literals preserve insertion order, and
every key the source writes is distinct), with leaf values that may a
priori be strings, numbers or booleans — the point of the canonicalizer is
that only string leaves actually occur. -/

/-- A JSON-ish runtime value: string, number or boolean leaf, array, or
object (ordered field list). -/
inductive JsonVal where
  | str : String → JsonVal
  | num : Int → JsonVal
  | bool : Bool → JsonVal
  | arr : List JsonVal → JsonVal
  | obj : List (String × JsonVal) → JsonVal
deriving Repr, BEq

mutual

/-- Does every leaf value (recursively) of a JSON value have string type? -/
def JsonVal.allStringLeaves : JsonVal → Bool
  | JsonVal.str _ => true
  | JsonVal.num _ => false
  | JsonVal.bool _ => false
  | JsonVal.arr xs => allStringLeavesList xs
  | JsonVal.obj fs => allStringLeavesFields fs

/-- Predicate `JsonVal.allStringLeaves` over every element of an array. -/
def allStringLeavesList : List JsonVal → Bool
  | [] => true
  | v :: rest => v.allStringLeaves && allStringLeavesList rest

/-- Predicate `JsonVal.allStringLeaves` over every field of an object. -/
def allStringLeavesFields : List (String × JsonVal) → Bool
  | [] => true
  | (_, v) :: rest => v.allStringLeaves && allStringLeavesFields rest

end

/-- Field lookup in an object field list (all keys the canonicalizer emits
are distinct, so first match is the JavaScript property value). -/
def jsonLookup (fields : List (String × JsonVal)) (k : String) : Option JsonVal :=
  match fields with
  | [] => none
  | (k', v) :: rest => if k' = k then some v else jsonLookup rest k

/-- Conditional spread `...(o !== undefined && { k: f v })`: one field when
the option is present, nothing otherwise. -/
def optField (k : String) (o : Option α) (f : α → JsonVal) : List (String × JsonVal) :=
  match o with
  | some v => [(k, f v)]
  | none => []

/-! ## Payment details input model (src/server/types.ts)

Numeric TypeScript fields (`amount`, taxes, split amounts, `merchantId`)
are modelled as `Int`; `String(n)` on an integral JavaScript number agrees
with `Int` rendering (floating-point rendering is out of scope — no claim
depends on digit strings of non-integral amounts). `String(s)` on a string
is the identity and is embedded as such. -/

/-- Mirror of `EpaycoBillingDetails`. -/
structure EpaycoBillingDetails where
  email : String
  name : String
  address : String
  typeDoc : String
  numberDoc : String
  callingCode : Option String
  mobilePhone : String
deriving Repr, DecidableEq

/-- Mirror of `EpaycoSplitReceiver`. -/
structure EpaycoSplitReceiver where
  merchantId : Int
  amount : Int
  taxBase : Option Int
  tax : Option Int
  fee : Option Int
deriving Repr, DecidableEq

/-- Mirror of `EpaycoSplitPayment` (`type` is "percentage" or "fixed"). -/
structure EpaycoSplitPayment where
  type : String
  receivers : List EpaycoSplitReceiver
deriving Repr, DecidableEq

/-- Mirror of `EpaycoExtras`: the ten optional extension slots. -/
structure EpaycoExtras where
  extra1 : Option String
  extra2 : Option String
  extra3 : Option String
  extra4 : Option String
  extra5 : Option String
  extra6 : Option String
  extra7 : Option String
  extra8 : Option String
  extra9 : Option String
  extra10 : Option String
deriving Repr, DecidableEq

/-- Mirror of `EpaycoPaymentDetails`. -/
structure EpaycoPaymentDetails where
  name : String
  description : String
  currency : String
  amount : Int
  country : String
  lang : String
  ip : String
  confirmationUrl : String
  responseUrl : String
  billing : EpaycoBillingDetails
  invoice : Option String
  taxBase : Option Int
  tax : Option Int
  taxIco : Option Int
  methodsDisable : Option (List String)
  splitPayment : Option EpaycoSplitPayment
  extras : Option EpaycoExtras
deriving Repr, DecidableEq

/-- The numbered extras slot of an `EpaycoExtras` value (`extras[key]` for
`key = extraN`); slots outside 1..10 do not exist. -/
def extraSlot (ex : EpaycoExtras) : Nat → Option String
  | 1 => ex.extra1
  | 2 => ex.extra2
  | 3 => ex.extra3
  | 4 => ex.extra4
  | 5 => ex.extra5
  | 6 => ex.extra6
  | 7 => ex.extra7
  | 8 => ex.extra8
  | 9 => ex.extra9
  | 10 => ex.extra10
  | _ => none

/-- The key `extraN` for slot `N` (the template `extra${i}` of the source
loop, spelled out for the ten slot indices the loop visits). -/
def extraKey : Nat → String
  | 1 => "extra1"
  | 2 => "extra2"
  | 3 => "extra3"
  | 4 => "extra4"
  | 5 => "extra5"
  | 6 => "extra6"
  | 7 => "extra7"
  | 8 => "extra8"
  | 9 => "extra9"
  | 10 => "extra10"
  | i => "extra" ++ toString i

/-- The fields appended by the `for (let i = 1; i <= 10; i++)` loop of
`mapPaymentDetailsToEpaycoRequest` (source lines 189-196), unrolled: each
present, non-null slot is assigned (appended) under its own key, in
ascending slot order. -/
def extrasFields (ex : EpaycoExtras) : List (String × JsonVal) :=
  optField (extraKey 1) ex.extra1 JsonVal.str ++
  optField (extraKey 2) ex.extra2 JsonVal.str ++
  optField (extraKey 3) ex.extra3 JsonVal.str ++
  optField (extraKey 4) ex.extra4 JsonVal.str ++
  optField (extraKey 5) ex.extra5 JsonVal.str ++
  optField (extraKey 6) ex.extra6 JsonVal.str ++
  optField (extraKey 7) ex.extra7 JsonVal.str ++
  optField (extraKey 8) ex.extra8 JsonVal.str ++
  optField (extraKey 9) ex.extra9 JsonVal.str ++
  optField (extraKey 10) ex.extra10 JsonVal.str

/-- The ten extras keys, in ascending slot order. -/
def extrasKeyList : List String :=
  [extraKey 1, extraKey 2, extraKey 3, extraKey 4, extraKey 5,
   extraKey 6, extraKey 7, extraKey 8, extraKey 9, extraKey 10]

/-- The nested `billing` object (source lines 142-152): six stringified
fields plus the conditionally-spread `callingCode`. -/
def billingFields (b : EpaycoBillingDetails) : List (String × JsonVal) :=
  [("email", JsonVal.str b.email),
   ("name", JsonVal.str b.name),
   ("address", JsonVal.str b.address),
   ("typeDoc", JsonVal.str b.typeDoc),
   ("numberDoc", JsonVal.str b.numberDoc),
   ("mobilePhone", JsonVal.str b.mobilePhone)] ++
  optField "callingCode" b.callingCode JsonVal.str

/-- One receiver of the `splitPayment` object (source lines 176-184):
id and amount stringified, tax/fee fields conditionally spread. -/
def splitReceiverFields (r : EpaycoSplitReceiver) : List (String × JsonVal) :=
  [("merchantId", JsonVal.str (toString r.merchantId)),
   ("amount", JsonVal.str (toString r.amount))] ++
  optField "taxBase" r.taxBase (fun v => JsonVal.str (toString v)) ++
  optField "tax" r.tax (fun v => JsonVal.str (toString v)) ++
  optField "fee" r.fee (fun v => JsonVal.str (toString v))

/-- The `splitPayment` object (source lines 173-186). -/
def splitPaymentFields (sp : EpaycoSplitPayment) : List (String × JsonVal) :=
  [("type", JsonVal.str sp.type),
   ("receivers", JsonVal.arr (sp.receivers.map (fun r => JsonVal.obj (splitReceiverFields r))))]

/-- The conditional spread of `methodsDisable` (source lines 167-170):
emitted only when present AND non-empty
(`details.methodsDisable && details.methodsDisable.length > 0`). -/
def methodsDisableSection (md : Option (List String)) : List (String × JsonVal) :=
  match md with
  | some ms =>
      if ms.length > 0 then [("methodsDisable", JsonVal.arr (ms.map JsonVal.str))]
      else []
  | none => []

/-- The conditional spread of `splitPayment` (source lines 173-186). -/
def splitPaymentSection (sp : Option EpaycoSplitPayment) : List (String × JsonVal) :=
  match sp with
  | some sp => [("splitPayment", JsonVal.obj (splitPaymentFields sp))]
  | none => []

/-- The guarded extras loop (source lines 189-196). -/
def extrasSection (ex : Option EpaycoExtras) : List (String × JsonVal) :=
  match ex with
  | some ex => extrasFields ex
  | none => []

/-- The unconditional fields of the payload object literal (source lines
128-160), in the exact key order the source writes them. -/
def basePayloadFields (details : EpaycoPaymentDetails)
    (isTestMode : Bool) : List (String × JsonVal) :=
  [("test", JsonVal.str (jsToLower (if isTestMode then "true" else "false"))),
   ("ip", JsonVal.str details.ip),
   ("name", JsonVal.str details.name),
   ("description", JsonVal.str details.description),
   ("currency", JsonVal.str (jsToUpper details.currency)),
   ("amount", JsonVal.str (toString details.amount)),
   ("country", JsonVal.str (jsToUpper details.country)),
   ("lang", JsonVal.str (jsToUpper details.lang)),
   ("response", JsonVal.str details.responseUrl),
   ("confirmation", JsonVal.str details.confirmationUrl),
   ("checkout_version", JsonVal.str "2"),
   ("billing", JsonVal.obj (billingFields details.billing)),
   ("nameBilling", JsonVal.str details.billing.name),
   ("emailBilling", JsonVal.str details.billing.email),
   ("addressBilling", JsonVal.str details.billing.address),
   ("typeDocBilling", JsonVal.str details.billing.typeDoc),
   ("numberDocBilling", JsonVal.str details.billing.numberDoc),
   ("mobilephoneBilling", JsonVal.str details.billing.mobilePhone)]

/-- Embedding of `mapPaymentDetailsToEpaycoRequest` (source lines 124-199): the
stringified payload — the unconditional fields in literal order, the
conditional spreads for the optional parts, and the extras loop appended
last. -/
def mapPaymentDetailsToEpaycoRequest (details : EpaycoPaymentDetails)
    (isTestMode : Bool) : List (String × JsonVal) :=
  basePayloadFields details isTestMode ++
  optField "invoice" details.invoice JsonVal.str ++
  optField "taxBase" details.taxBase (fun v => JsonVal.str (toString v)) ++
  optField "tax" details.tax (fun v => JsonVal.str (toString v)) ++
  optField "taxIco" details.taxIco (fun v => JsonVal.str (toString v)) ++
  methodsDisableSection details.methodsDisable ++
  splitPaymentSection details.splitPayment ++
  extrasSection details.extras

/-! ## Authenticator (`getEpaycoAuthToken`, src/server/index.ts)

The network transport is abstracted away: the embedding interprets the
login response body the axios call delivered (`response.data`), which may
itself be absent. Every optional response field is `Option String`. -/

/-- The login response body, mirroring `EpaycoLoginResponse` (the fields
the code reads). -/
structure EpaycoLoginResponse where
  token : Option String
  error : Option String
  titleResponse : Option String
  textResponse : Option String
  message : Option String
deriving Repr, DecidableEq

/-- The empty body `{}`: every field absent. -/
def emptyLoginResponse : EpaycoLoginResponse :=
  ⟨none, none, none, none, none⟩

/-- The generic fallback text of the authentication error message. -/
def authFallbackText : String :=
  "Invalid token or unknown error response during authentication."

/-- Embedding of `getEpaycoAuthToken`, response interpretation (source lines 63-78):
succeed with the token exactly when the body is present and its `token`
field is truthy; otherwise derive the failure message through the
JavaScript `||` fallback chain over `error`, `textResponse`,
`titleResponse`, `message`, ending in the generic fallback, and fail
tagged `ePayco Authentication Failed`. -/
def getEpaycoAuthToken (body : Option EpaycoLoginResponse) : Except String String :=
  if jsTruthy (body.bind (fun b => b.token)) then
    Except.ok (jsInterp (body.bind (fun b => b.token)))
  else
    let errorFields := body.getD emptyLoginResponse
    Except.error ("ePayco Authentication Failed: " ++
      jsOrD errorFields.error
        (jsOrD errorFields.textResponse
          (jsOrD errorFields.titleResponse
            (jsOrD errorFields.message authFallbackText))))

/-- The spec's description of failure-message extraction: an explicit
ordered list of fields tried in sequence, first usable result wins, with a
final fallback. Used to relate the implementation's nested `||` chain to
the spec's ordered-extractor reading. -/
def firstUsable (fields : List (Option String)) (fallback : String) : String :=
  match fields with
  | [] => fallback
  | o :: rest => if jsTruthy o then jsInterp o else firstUsable rest fallback

/-! ## Session Orchestrator (`createEpaycoSession`, src/server/index.ts)

The two network round trips are abstracted into an `EpaycoNetwork` oracle
holding the body each endpoint would deliver; the embedding additionally
returns the list of network calls actually issued, in order, so that
"no network call happens" is a provable statement. -/

/-- One field error inside an error response's `data.errors`. -/
structure EpaycoFieldError where
  codError : Int
  errorMessage : String
deriving Repr, DecidableEq

/-- The `data` member of a session-create response: `sessionId` on
success, `errors` on failure, each possibly absent. -/
structure EpaycoSessionResponseData where
  sessionId : Option String
  errors : Option (List EpaycoFieldError)
deriving Repr, DecidableEq

/-- A session-create response body as the code reads it: `success`
(compared by `=== true`), the two text fields, and the optional `data`. -/
structure EpaycoSessionApiResponse where
  success : Option Bool
  titleResponse : Option String
  textResponse : Option String
  data : Option EpaycoSessionResponseData
deriving Repr, DecidableEq

/-- Configuration for `createEpaycoSession`; `paymentDetails` is typed required
in TypeScript but guarded at runtime, hence `Option` here. -/
structure CreateEpaycoSessionConfig where
  publicKey : String
  privateKey : String
  paymentDetails : Option EpaycoPaymentDetails
  isTestMode : Bool
  epaycoApiBaseUrl : Option String
deriving Repr, DecidableEq

/-- The bodies the two remote endpoints would deliver, were they called. -/
structure EpaycoNetwork where
  loginBody : Option EpaycoLoginResponse
  sessionResponse : EpaycoSessionApiResponse
deriving Repr, DecidableEq

/-- A network round trip issued by `createEpaycoSession`. -/
inductive NetworkCall where
  | login
  | sessionCreate
deriving Repr, DecidableEq

/-- The field-error list rendered and joined (source lines 316-321). -/
def joinFieldErrors (errs : List EpaycoFieldError) : String :=
  String.intercalate ", "
    (errs.map (fun e => e.errorMessage ++ " (field code: " ++ toString e.codError ++ ")"))

/-- Interpretation of the session-create response (source lines 301-327):
succeed exactly when `success === true` and `data?.sessionId` is truthy;
otherwise build the failure message from `textResponse`/`titleResponse`
and append the joined field errors when a non-empty `data.errors` exists. -/
def interpretSessionResponse (resp : EpaycoSessionApiResponse) : Except String String :=
  if resp.success = some true ∧ jsTruthy (resp.data.bind (fun d => d.sessionId)) then
    Except.ok (jsInterp (resp.data.bind (fun d => d.sessionId)))
  else
    let base := "ePayco session creation failed."
    let msg1 :=
      if jsTruthy resp.textResponse || jsTruthy resp.titleResponse then
        jsOrD resp.textResponse (jsOrD resp.titleResponse base)
      else base
    let msg2 :=
      match resp.data.bind (fun d => d.errors) with
      | some errs =>
          if errs.length > 0 then msg1 ++ " Details: " ++ joinFieldErrors errs
          else msg1
      | none => msg1
    Except.error ("ePayco Session Creation Failed: " ++ msg2)

/-- The configuration-error messages thrown before any network activity
(source lines 264-275). -/
def missingKeysMsg : String :=
  "ePayco SDK: Public Key and Private Key are required in CreateEpaycoSessionConfig."

/-- The missing-payment-details configuration error message. -/
def missingDetailsMsg : String :=
  "ePayco SDK: Payment details (paymentDetails) are required in CreateEpaycoSessionConfig."

/-- The catch-block re-tagging of an inner error (source lines 356-368):
messages already tagged by the SDK are preserved, anything else is wrapped
as a session-creation failure. -/
def rewrapError (msg : String) : String :=
  if msg.startsWith "ePayco SDK:" ||
     msg.startsWith "ePayco Authentication Failed:" ||
     msg.startsWith "ePayco Session Creation Failed:" then msg
  else "ePayco Session Creation Failed: " ++ msg

/-- Embedding of `createEpaycoSession` (source lines 253-377): validate the
configuration before any network call, then authenticate, canonicalize and
interpret the session-create response; the second component of the result
is the ordered list of network round trips issued. -/
def createEpaycoSession (config : CreateEpaycoSessionConfig)
    (net : EpaycoNetwork) : Except String String × List NetworkCall :=
  if config.publicKey = "" ∨ config.privateKey = "" then
    (Except.error missingKeysMsg, [])
  else if config.paymentDetails.isNone then
    (Except.error missingDetailsMsg, [])
  else
    match getEpaycoAuthToken net.loginBody with
    | Except.error msg => (Except.error (rewrapError msg), [NetworkCall.login])
    | Except.ok _token =>
        match interpretSessionResponse net.sessionResponse with
        | Except.error msg =>
            (Except.error (rewrapError msg), [NetworkCall.login, NetworkCall.sessionCreate])
        | Except.ok sid =>
            (Except.ok sid, [NetworkCall.login, NetworkCall.sessionCreate])

/-- Fixture billing details for concrete instances. -/
def sampleBilling : EpaycoBillingDetails :=
  ⟨"jane@example.com", "Jane", "123 Main St", "CC", "123456789", none, "3001234567"⟩

/-- Fixture payment details with every optional part absent. -/
def samplePaymentDetails : EpaycoPaymentDetails :=
  { name := "Product", description := "Desc", currency := "cop", amount := 50000,
    country := "co", lang := "es", ip := "190.0.0.1",
    confirmationUrl := "https://x.co/confirm", responseUrl := "https://x.co/resp",
    billing := sampleBilling, invoice := none, taxBase := none, tax := none,
    taxIco := none, methodsDisable := none, splitPayment := none, extras := none }

/-- Fixture payment details whose `methodsDisable` is the present-but-empty
array. -/
def emptyMethodsDetails : EpaycoPaymentDetails :=
  { samplePaymentDetails with methodsDisable := some [] }

/-- Fixture extras with only slot 5 present. -/
def onlyExtra5 : EpaycoExtras :=
  ⟨none, none, none, none, some "order-42", none, none, none, none, none⟩

/-- Fixture payment details carrying `onlyExtra5`. -/
def extra5Details : EpaycoPaymentDetails :=
  { samplePaymentDetails with extras := some onlyExtra5 }

/-- Fixture login body carrying only a token. -/
def tokenLoginBody : EpaycoLoginResponse :=
  ⟨some "tok", none, none, none, none⟩

/-- Fixture configuration with well-formed credentials and details. -/
def sampleConfig : CreateEpaycoSessionConfig :=
  ⟨"pk", "sk", some samplePaymentDetails, true, none⟩

/-- Fixture network where login succeeds and the session-create response is
the defensive case `{success: true, data: {}}` (sessionId missing). -/
def missingIdNet : EpaycoNetwork :=
  ⟨some tokenLoginBody, ⟨some true, none, none, some ⟨none, none⟩⟩⟩

/-!
# Theorems

Shared helper lemmas first, then one theorem per claim (with its witness or
counterexample where required).
-/

/-- A hexadecimal digest always starts with two hex digits, so it is never
the empty string. -/
theorem toHexLower_cons_ne_empty (b : Nat) (l : List Nat) : toHexLower (b :: l) ≠ "" := by
  simp only [toHexLower, List.flatMap_cons, hexByte]
  intro h
  have h2 := congrArg String.data h
  simp at h2

/-- Lemma: `sha256Bytes` always produces a cons cell (the four bytes of the first
hash word lead). -/
theorem sha256Bytes_cons (msg : List Nat) : ∃ b l, sha256Bytes msg = b :: l :=
  ⟨_, _, rfl⟩

/-- The SHA-256 hex digest of any string is non-empty. -/
theorem sha256Hex_ne_empty (s : String) : sha256Hex s ≠ "" := by
  obtain ⟨b, l, h⟩ := sha256Bytes_cons (utf8Bytes s)
  unfold sha256Hex
  rw [h]
  exact toHexLower_cons_ne_empty b l

/-- A digest value is always truthy as a received signature. -/
theorem jsTruthy_sha256Hex (s : String) : jsTruthy (some (sha256Hex s)) = true := by
  simp [jsTruthy, sha256Hex_ne_empty]

/-- C1: when the received signature and the six material fields are all
present (the five truthiness-checked fields and the signature non-empty,
the amount merely not `undefined`/`null`), `validateEpaycoSignature`
returns `true` exactly when the received signature equals the lowercase
hexadecimal SHA-256 digest of the six fields joined, in order, by `^`,
with the amount used exactly as given. -/
theorem validateEpaycoSignature_iff_sha256
    (receivedSignature : Option String) (c : EpaycoSignatureConstructionData)
    (hrec : jsTruthy receivedSignature = true)
    (h1 : jsTruthy c.p_cust_id_cliente = true)
    (h2 : jsTruthy c.p_key = true)
    (h3 : jsTruthy c.x_ref_payco = true)
    (h4 : jsTruthy c.x_transaction_id = true)
    (h5 : c.x_amount.isNone = false)
    (h6 : jsTruthy c.x_currency_code = true) :
    validateEpaycoSignature receivedSignature c = true ↔
      receivedSignature = some (sha256Hex (signatureString c)) := by
  unfold validateEpaycoSignature signatureMissing
  rw [hrec, h1, h2, h3, h4, h5, h6]
  simp

/-- Witness for C1 at the spec's scenario-A material. -/
theorem validateEpaycoSignature_iff_sha256_witness :
    jsTruthy (some "deadbeef") = true ∧
    (validateEpaycoSignature (some "deadbeef")
        ⟨some "123", some "abc", some "999", some "999", some "5000", some "COP"⟩ = true ↔
      some "deadbeef" = some (sha256Hex (signatureString
        ⟨some "123", some "abc", some "999", some "999", some "5000", some "COP"⟩))) :=
  ⟨by decide,
   validateEpaycoSignature_iff_sha256 (some "deadbeef")
     ⟨some "123", some "abc", some "999", some "999", some "5000", some "COP"⟩
     (by decide) (by decide) (by decide) (by decide) (by decide) (by decide) (by decide)⟩

/-- C2: when any one of the seven inputs is absent (`undefined`/`null`),
`validateEpaycoSignature` returns `false` (it is a total function, so it
never throws); and presence of the amount is decided against
`undefined`/`null` only, so the amount `"0"` with every other input truthy
passes the missing-input guard rather than being rejected for
missingness. -/
theorem validateEpaycoSignature_missing_input :
    (∀ (receivedSignature : Option String) (c : EpaycoSignatureConstructionData),
        receivedSignature = none ∨ c.p_cust_id_cliente = none ∨ c.p_key = none ∨
        c.x_ref_payco = none ∨ c.x_transaction_id = none ∨
        c.x_amount = none ∨ c.x_currency_code = none →
        validateEpaycoSignature receivedSignature c = false) ∧
    (∀ (receivedSignature : Option String) (c : EpaycoSignatureConstructionData),
        jsTruthy receivedSignature = true →
        jsTruthy c.p_cust_id_cliente = true →
        jsTruthy c.p_key = true →
        jsTruthy c.x_ref_payco = true →
        jsTruthy c.x_transaction_id = true →
        jsTruthy c.x_currency_code = true →
        c.x_amount = some "0" →
        signatureMissing receivedSignature c = false) := by
  constructor
  · intro receivedSignature c h
    rcases h with h | h | h | h | h | h | h <;>
      simp [validateEpaycoSignature, signatureMissing, h, jsTruthy]
  · intro receivedSignature c hrec h1 h2 h3 h4 h6 h5
    simp [signatureMissing, hrec, h1, h2, h3, h4, h6, h5]

/-- Witness for C2: an absent signature is rejected, and the amount `"0"`
with all other inputs present passes the guard. -/
theorem validateEpaycoSignature_missing_input_witness :
    validateEpaycoSignature none
      ⟨some "1", some "k", some "r", some "t", some "5", some "COP"⟩ = false ∧
    signatureMissing (some "sig")
      ⟨some "1", some "k", some "r", some "t", some "0", some "COP"⟩ = false :=
  ⟨validateEpaycoSignature_missing_input.1 none
     ⟨some "1", some "k", some "r", some "t", some "5", some "COP"⟩ (Or.inl rfl),
   validateEpaycoSignature_missing_input.2 (some "sig")
     ⟨some "1", some "k", some "r", some "t", some "0", some "COP"⟩
     (by decide) (by decide) (by decide) (by decide) (by decide) (by decide) rfl⟩

/-- C3: the canonical signing-string construction is not injective — two
distinct materials obtained by moving a `^` across the
`p_key`/`x_ref_payco` boundary join to the same string, so the verifier
gives the same verdict for both on every received signature, and accepts
the digest of the shared string as valid for both. -/
theorem signatureString_not_injective :
    ∃ c1 c2 : EpaycoSignatureConstructionData,
      c1 ≠ c2 ∧
      signatureString c1 = signatureString c2 ∧
      validateEpaycoSignature (some (sha256Hex (signatureString c1))) c1 = true ∧
      validateEpaycoSignature (some (sha256Hex (signatureString c1))) c2 = true ∧
      ∀ receivedSignature : Option String,
        validateEpaycoSignature receivedSignature c1 =
          validateEpaycoSignature receivedSignature c2 := by
  refine ⟨⟨some "1", some "k^r", some "x", some "t", some "5", some "COP"⟩,
          ⟨some "1", some "k", some "r^x", some "t", some "5", some "COP"⟩,
          by decide, by decide, ?_, ?_, ?_⟩
  · rw [validateEpaycoSignature_iff_sha256 _ _ (jsTruthy_sha256Hex _)
      (by decide) (by decide) (by decide) (by decide) (by decide) (by decide)]
  · have hstr : signatureString ⟨some "1", some "k^r", some "x", some "t", some "5", some "COP"⟩ =
        signatureString ⟨some "1", some "k", some "r^x", some "t", some "5", some "COP"⟩ := by
      decide
    rw [hstr]
    rw [validateEpaycoSignature_iff_sha256 _ _ (jsTruthy_sha256Hex _)
      (by decide) (by decide) (by decide) (by decide) (by decide) (by decide)]
  · intro receivedSignature
    have hstr : signatureString ⟨some "1", some "k^r", some "x", some "t", some "5", some "COP"⟩ =
        signatureString ⟨some "1", some "k", some "r^x", some "t", some "5", some "COP"⟩ := by
      decide
    have hmiss : signatureMissing receivedSignature
        ⟨some "1", some "k^r", some "x", some "t", some "5", some "COP"⟩ =
        signatureMissing receivedSignature
        ⟨some "1", some "k", some "r^x", some "t", some "5", some "COP"⟩ := by
      cases receivedSignature <;> rfl
    simp only [validateEpaycoSignature, hmiss, hstr]

/-- A string-or-undefined value is truthy exactly when it is a present,
non-empty string. -/
theorem jsTruthy_iff (o : Option String) :
    jsTruthy o = true ↔ ∃ s, o = some s ∧ s ≠ "" := by
  cases o <;> simp [jsTruthy]

/-- The `||` fallback on an optional string, re-expressed through
truthiness. -/
theorem jsOrD_eq (o : Option String) (dflt : String) :
    jsOrD o dflt = if jsTruthy o then jsInterp o else dflt := by
  cases o with
  | none => rfl
  | some s =>
      by_cases h : s = "" <;> simp [jsOrD, jsTruthy, jsInterp, h]

/-- C9: the authenticator succeeds exactly when the body is present with a
non-empty token; any other shape fails with an `ePayco Authentication
Failed` message chosen as the first present-and-non-empty field among
`error`, `textResponse`, `titleResponse`, `message` in that order, and a
body with none of those (such as `{}`, or an absent body) fails with the
generic fallback message instead of throwing. -/
theorem getEpaycoAuthToken_contract (body : Option EpaycoLoginResponse) :
    (∀ t, getEpaycoAuthToken body = Except.ok t →
        ∃ b, body = some b ∧ b.token = some t ∧ t ≠ "") ∧
    ((∃ b, body = some b ∧ jsTruthy b.token = true) →
        ∃ t, getEpaycoAuthToken body = Except.ok t) ∧
    (∀ b, body = some b → jsTruthy b.token = false →
        getEpaycoAuthToken body =
          Except.error ("ePayco Authentication Failed: " ++
            firstUsable [b.error, b.textResponse, b.titleResponse, b.message]
              authFallbackText)) ∧
    getEpaycoAuthToken none =
      Except.error ("ePayco Authentication Failed: " ++ authFallbackText) ∧
    getEpaycoAuthToken (some emptyLoginResponse) =
      Except.error ("ePayco Authentication Failed: " ++ authFallbackText) := by
  refine ⟨?_, ?_, ?_, rfl, rfl⟩
  · intro t h
    by_cases hc : jsTruthy (body.bind (fun b => b.token)) = true
    · obtain ⟨s, hs, hne⟩ := (jsTruthy_iff _).1 hc
      obtain ⟨b, hb, htok⟩ := Option.bind_eq_some.1 hs
      rw [getEpaycoAuthToken, if_pos hc, hs] at h
      have ht : s = t := by simpa [jsInterp] using h
      exact ⟨b, hb, by rw [htok, ht], ht ▸ hne⟩
    · rw [getEpaycoAuthToken, if_neg hc] at h
      simp at h
  · rintro ⟨b, rfl, htok⟩
    refine ⟨jsInterp b.token, ?_⟩
    rw [getEpaycoAuthToken, if_pos (by simpa using htok)]
    simp
  · rintro b rfl hf
    rw [getEpaycoAuthToken, if_neg (by simpa using hf)]
    simp [firstUsable, jsOrD_eq]

/-- Witness for C9: a token-only body succeeds; the empty body `{}` fails
with the generic fallback message. -/
theorem getEpaycoAuthToken_contract_witness :
    (∃ t, getEpaycoAuthToken (some tokenLoginBody) = Except.ok t) ∧
    getEpaycoAuthToken (some emptyLoginResponse) =
      Except.error ("ePayco Authentication Failed: " ++ authFallbackText) :=
  ⟨(getEpaycoAuthToken_contract (some tokenLoginBody)).2.1
     ⟨tokenLoginBody, rfl, by decide⟩,
   (getEpaycoAuthToken_contract (some emptyLoginResponse)).2.2.2.2⟩

/-- C10: with an empty public key, an empty private key, or absent payment
details, `createEpaycoSession` fails with the corresponding configuration
error message and issues no network call at all. -/
theorem createEpaycoSession_config_guard (config : CreateEpaycoSessionConfig)
    (net : EpaycoNetwork)
    (h : config.publicKey = "" ∨ config.privateKey = "" ∨
         config.paymentDetails = none) :
    (createEpaycoSession config net).2 = [] ∧
    ((createEpaycoSession config net).1 = Except.error missingKeysMsg ∨
     (createEpaycoSession config net).1 = Except.error missingDetailsMsg) := by
  unfold createEpaycoSession
  by_cases hk : config.publicKey = "" ∨ config.privateKey = ""
  · rw [if_pos hk]
    exact ⟨rfl, Or.inl rfl⟩
  · have hpd : config.paymentDetails = none := by tauto
    rw [if_neg hk, hpd]
    exact ⟨rfl, Or.inr rfl⟩

/-- Witness for C10 at an empty public key. -/
theorem createEpaycoSession_config_guard_witness :
    (createEpaycoSession ⟨"", "sk", some samplePaymentDetails, true, none⟩
        missingIdNet).2 = [] ∧
    ((createEpaycoSession ⟨"", "sk", some samplePaymentDetails, true, none⟩
        missingIdNet).1 = Except.error missingKeysMsg ∨
     (createEpaycoSession ⟨"", "sk", some samplePaymentDetails, true, none⟩
        missingIdNet).1 = Except.error missingDetailsMsg) :=
  createEpaycoSession_config_guard _ _ (Or.inl rfl)

/-- C4: with a well-formed configuration and a successful login,
`createEpaycoSession` resolves with a session id exactly when the
session-create response has `success === true` and a truthy
`data.sessionId`; the resolved id is that `data.sessionId`; and any other
response combination fails with an error rather than resolving. -/
theorem createEpaycoSession_resolves_iff (config : CreateEpaycoSessionConfig)
    (net : EpaycoNetwork) (pd : EpaycoPaymentDetails) (tok : String)
    (hpk : ¬ config.publicKey = "") (hsk : ¬ config.privateKey = "")
    (hpd : config.paymentDetails = some pd)
    (hauth : getEpaycoAuthToken net.loginBody = Except.ok tok) :
    ((∃ sid, (createEpaycoSession config net).1 = Except.ok sid) ↔
      (net.sessionResponse.success = some true ∧
        jsTruthy (net.sessionResponse.data.bind (fun d => d.sessionId)) = true)) ∧
    (∀ sid, (createEpaycoSession config net).1 = Except.ok sid →
        net.sessionResponse.data.bind (fun d => d.sessionId) = some sid) ∧
    (¬ (net.sessionResponse.success = some true ∧
        jsTruthy (net.sessionResponse.data.bind (fun d => d.sessionId)) = true) →
      ∃ msg, (createEpaycoSession config net).1 = Except.error msg) := by
  have hor : ¬ (config.publicKey = "" ∨ config.privateKey = "") := by tauto
  have hrun : createEpaycoSession config net =
      (match interpretSessionResponse net.sessionResponse with
       | Except.error msg =>
           (Except.error (rewrapError msg), [NetworkCall.login, NetworkCall.sessionCreate])
       | Except.ok sid =>
           (Except.ok sid, [NetworkCall.login, NetworkCall.sessionCreate])) := by
    unfold createEpaycoSession
    rw [if_neg hor, hpd, hauth]
    simp
  rw [hrun]
  unfold interpretSessionResponse
  by_cases hc : net.sessionResponse.success = some true ∧
      jsTruthy (net.sessionResponse.data.bind (fun d => d.sessionId)) = true
  · rw [if_pos hc]
    refine ⟨by simpa using hc, ?_, fun hn => absurd hc hn⟩
    intro sid h
    obtain ⟨s, hs, _⟩ := (jsTruthy_iff _).1 hc.2
    rw [hs]
    simp only [Except.ok.injEq] at h
    rw [hs] at h
    simpa [jsInterp] using h
  · rw [if_neg hc]
    exact ⟨by simpa using hc, fun sid h => by simp at h, fun _ => ⟨_, rfl⟩⟩

/-- Witness for C4 at the defensive response `{success: true, data: {}}`:
login succeeds, yet the call does not resolve. -/
theorem createEpaycoSession_resolves_iff_witness :
    getEpaycoAuthToken missingIdNet.loginBody = Except.ok "tok" ∧
    ((∃ sid, (createEpaycoSession sampleConfig missingIdNet).1 = Except.ok sid) ↔
      (missingIdNet.sessionResponse.success = some true ∧
        jsTruthy (missingIdNet.sessionResponse.data.bind
          (fun d => d.sessionId)) = true)) ∧
    (¬ (missingIdNet.sessionResponse.success = some true ∧
        jsTruthy (missingIdNet.sessionResponse.data.bind
          (fun d => d.sessionId)) = true) →
      ∃ msg, (createEpaycoSession sampleConfig missingIdNet).1 = Except.error msg) :=
  ⟨rfl,
   (createEpaycoSession_resolves_iff sampleConfig missingIdNet samplePaymentDetails
      "tok" (by decide) (by decide) rfl rfl).1,
   (createEpaycoSession_resolves_iff sampleConfig missingIdNet samplePaymentDetails
      "tok" (by decide) (by decide) rfl rfl).2.2⟩

/-- Lemma: `allStringLeavesFields` distributes over field-list concatenation. -/
theorem allStringLeavesFields_append (xs ys : List (String × JsonVal)) :
    allStringLeavesFields (xs ++ ys) =
      (allStringLeavesFields xs && allStringLeavesFields ys) := by
  induction xs with
  | nil => simp [allStringLeavesFields]
  | cons a rest ih =>
      obtain ⟨k, v⟩ := a
      simp [allStringLeavesFields, ih, Bool.and_assoc]

/-- A conditional spread whose value is always all-string is all-string. -/
theorem allStringLeavesFields_optField (k : String) (o : Option α)
    (f : α → JsonVal) (h : ∀ a, (f a).allStringLeaves = true) :
    allStringLeavesFields (optField k o f) = true := by
  cases o <;> simp [optField, allStringLeavesFields, h]

/-- An array of plain strings is all-string. -/
theorem allStringLeavesList_map_str (ms : List String) :
    allStringLeavesList (ms.map JsonVal.str) = true := by
  induction ms with
  | nil => simp [allStringLeavesList]
  | cons m rest ih =>
      simp [allStringLeavesList, ih, JsonVal.allStringLeaves]

/-- The nested billing object is all-string. -/
theorem allStringLeavesFields_billing (b : EpaycoBillingDetails) :
    allStringLeavesFields (billingFields b) = true := by
  cases hc : b.callingCode <;>
    simp [billingFields, hc, optField, allStringLeavesFields_append,
      allStringLeavesFields, JsonVal.allStringLeaves]

/-- A split receiver object is all-string. -/
theorem allStringLeavesFields_receiver (r : EpaycoSplitReceiver) :
    allStringLeavesFields (splitReceiverFields r) = true := by
  simp [splitReceiverFields, allStringLeavesFields_append, allStringLeavesFields,
    JsonVal.allStringLeaves, allStringLeavesFields_optField]

/-- The receivers array is all-string. -/
theorem allStringLeavesList_receivers (rs : List EpaycoSplitReceiver) :
    allStringLeavesList (rs.map (fun r => JsonVal.obj (splitReceiverFields r))) = true := by
  induction rs with
  | nil => simp [allStringLeavesList]
  | cons r rest ih =>
      simp [allStringLeavesList, ih, JsonVal.allStringLeaves,
        allStringLeavesFields_receiver]

/-- The split payment object is all-string. -/
theorem allStringLeavesFields_splitPayment (sp : EpaycoSplitPayment) :
    allStringLeavesFields (splitPaymentFields sp) = true := by
  simp [splitPaymentFields, allStringLeavesFields, JsonVal.allStringLeaves,
    allStringLeavesList_receivers]

/-- The extras loop output is all-string. -/
theorem allStringLeavesFields_extras (ex : EpaycoExtras) :
    allStringLeavesFields (extrasFields ex) = true := by
  simp [extrasFields, allStringLeavesFields_append,
    allStringLeavesFields_optField, JsonVal.allStringLeaves]

/-- The `methodsDisable` section is all-string. -/
theorem allStringLeavesFields_methodsSection (md : Option (List String)) :
    allStringLeavesFields (methodsDisableSection md) = true := by
  rcases md with _ | ms
  · simp [methodsDisableSection, allStringLeavesFields]
  · by_cases h : ms.length > 0 <;>
      simp [methodsDisableSection, h, allStringLeavesFields,
        JsonVal.allStringLeaves, allStringLeavesList_map_str]

/-- The `splitPayment` section is all-string. -/
theorem allStringLeavesFields_splitSection (sp : Option EpaycoSplitPayment) :
    allStringLeavesFields (splitPaymentSection sp) = true := by
  rcases sp with _ | sp <;>
    simp [splitPaymentSection, allStringLeavesFields, JsonVal.allStringLeaves,
      allStringLeavesFields_splitPayment, splitPaymentFields,
      allStringLeavesList_receivers]

/-- The extras section is all-string. -/
theorem allStringLeavesFields_extrasSection (ex : Option EpaycoExtras) :
    allStringLeavesFields (extrasSection ex) = true := by
  rcases ex with _ | ex <;>
    simp [extrasSection, allStringLeavesFields, allStringLeavesFields_extras]

/-- C5: canonicalization totality — every leaf value the canonicalizer
produces, recursively through nested objects and arrays, is a string; and
the test-mode flag is emitted as the lowercase literal string "true" or
"false". -/
theorem mapPaymentDetails_string_leaves (details : EpaycoPaymentDetails)
    (isTestMode : Bool) :
    allStringLeavesFields (mapPaymentDetailsToEpaycoRequest details isTestMode) = true ∧
    jsonLookup (mapPaymentDetailsToEpaycoRequest details isTestMode) "test" =
      some (JsonVal.str (if isTestMode then "true" else "false")) := by
  constructor
  · unfold mapPaymentDetailsToEpaycoRequest basePayloadFields
    simp [allStringLeavesFields_append, allStringLeavesFields,
      JsonVal.allStringLeaves, allStringLeavesFields_billing,
      allStringLeavesFields_optField, allStringLeavesFields_methodsSection,
      allStringLeavesFields_splitSection, allStringLeavesFields_extrasSection]
  · cases isTestMode <;> rfl

/-- C6: root/nested billing duplication — the output carries the six
root-level `*Billing` fields, each present, and each equal to the
corresponding field of the nested `billing` object of the same output. -/
theorem mapPaymentDetails_billing_duplication (details : EpaycoPaymentDetails)
    (isTestMode : Bool) :
    ∃ bf, jsonLookup (mapPaymentDetailsToEpaycoRequest details isTestMode) "billing" =
        some (JsonVal.obj bf) ∧
      ((jsonLookup (mapPaymentDetailsToEpaycoRequest details isTestMode)
          "nameBilling").isSome = true ∧
        jsonLookup (mapPaymentDetailsToEpaycoRequest details isTestMode) "nameBilling" =
          jsonLookup bf "name") ∧
      ((jsonLookup (mapPaymentDetailsToEpaycoRequest details isTestMode)
          "emailBilling").isSome = true ∧
        jsonLookup (mapPaymentDetailsToEpaycoRequest details isTestMode) "emailBilling" =
          jsonLookup bf "email") ∧
      ((jsonLookup (mapPaymentDetailsToEpaycoRequest details isTestMode)
          "addressBilling").isSome = true ∧
        jsonLookup (mapPaymentDetailsToEpaycoRequest details isTestMode) "addressBilling" =
          jsonLookup bf "address") ∧
      ((jsonLookup (mapPaymentDetailsToEpaycoRequest details isTestMode)
          "typeDocBilling").isSome = true ∧
        jsonLookup (mapPaymentDetailsToEpaycoRequest details isTestMode) "typeDocBilling" =
          jsonLookup bf "typeDoc") ∧
      ((jsonLookup (mapPaymentDetailsToEpaycoRequest details isTestMode)
          "numberDocBilling").isSome = true ∧
        jsonLookup (mapPaymentDetailsToEpaycoRequest details isTestMode) "numberDocBilling" =
          jsonLookup bf "numberDoc") ∧
      ((jsonLookup (mapPaymentDetailsToEpaycoRequest details isTestMode)
          "mobilephoneBilling").isSome = true ∧
        jsonLookup (mapPaymentDetailsToEpaycoRequest details isTestMode) "mobilephoneBilling" =
          jsonLookup bf "mobilePhone") :=
  ⟨billingFields details.billing, rfl,
   ⟨rfl, rfl⟩, ⟨rfl, rfl⟩, ⟨rfl, rfl⟩, ⟨rfl, rfl⟩, ⟨rfl, rfl⟩, ⟨rfl, rfl⟩⟩

/-- Lookup distributes over field-list concatenation, first hit winning. -/
theorem jsonLookup_append (xs ys : List (String × JsonVal)) (k : String) :
    jsonLookup (xs ++ ys) k = (jsonLookup xs k).or (jsonLookup ys k) := by
  induction xs with
  | nil => simp [jsonLookup]
  | cons a rest ih =>
      obtain ⟨k', v⟩ := a
      by_cases h : k' = k <;> simp [jsonLookup, h, ih]

/-- Lookup in a conditional spread. -/
theorem jsonLookup_optField (k k' : String) (o : Option α) (f : α → JsonVal) :
    jsonLookup (optField k o f) k' = if k = k' then o.map f else none := by
  rcases o with _ | v
  · simp [optField, jsonLookup]
  · by_cases h : k = k' <;> simp [optField, jsonLookup, h]

/-- Lookup in the `methodsDisable` section: its one possible key, holding
the stringified array exactly when the input is a present non-empty
list. -/
theorem jsonLookup_methodsSection_eq (md : Option (List String)) (k : String) :
    jsonLookup (methodsDisableSection md) k =
      if k = "methodsDisable" then
        md.bind (fun ms =>
          if ms.length > 0 then some (JsonVal.arr (ms.map JsonVal.str)) else none)
      else none := by
  rcases md with _ | ms
  · simp [methodsDisableSection, jsonLookup]
  · by_cases hk : k = "methodsDisable"
    · subst hk
      by_cases hl : ms.length > 0 <;> simp [methodsDisableSection, hl, jsonLookup]
    · by_cases hl : ms.length > 0 <;>
        simp [methodsDisableSection, hl, jsonLookup, hk, Ne.symm hk]

/-- Lookup in the `splitPayment` section: its one possible key. -/
theorem jsonLookup_splitSection_eq (sp : Option EpaycoSplitPayment) (k : String) :
    jsonLookup (splitPaymentSection sp) k =
      if k = "splitPayment" then
        sp.map (fun s => JsonVal.obj (splitPaymentFields s))
      else none := by
  rcases sp with _ | s
  · simp [splitPaymentSection, jsonLookup]
  · by_cases hk : k = "splitPayment"
    · subst hk
      simp [splitPaymentSection, jsonLookup]
    · simp [splitPaymentSection, jsonLookup, hk, Ne.symm hk]

/-- The extras section holds only the ten extras keys. -/
theorem jsonLookup_extrasSection_ne (exo : Option EpaycoExtras) (k : String)
    (h : ∀ j ∈ List.range' 1 10, ¬ extraKey j = k) :
    jsonLookup (extrasSection exo) k = none := by
  rcases exo with _ | ex
  · rfl
  · simp [extrasSection, extrasFields, jsonLookup_append, jsonLookup_optField,
      h 1 (by decide), h 2 (by decide), h 3 (by decide), h 4 (by decide),
      h 5 (by decide), h 6 (by decide), h 7 (by decide), h 8 (by decide),
      h 9 (by decide), h 10 (by decide)]

/-- Lookup of the slot-`i` key inside the extras loop output: exactly the
stringified slot value when present, nothing otherwise. -/
theorem jsonLookup_extrasFields (ex : EpaycoExtras) (i : Nat)
    (h1 : 1 ≤ i) (h2 : i ≤ 10) :
    jsonLookup (extrasFields ex) (extraKey i) = (extraSlot ex i).map JsonVal.str := by
  interval_cases i <;>
    simp [extrasFields, jsonLookup_append, jsonLookup_optField, extraKey, extraSlot]

/-- No extras key occurs among the unconditional payload fields. -/
theorem jsonLookup_base_extraKey (details : EpaycoPaymentDetails)
    (isTestMode : Bool) (k : String) (hk : k ∈ extrasKeyList) :
    jsonLookup (basePayloadFields details isTestMode) k = none := by
  fin_cases hk <;> simp [basePayloadFields, jsonLookup, extraKey]

/-- Every key of the payload other than the ten extras keys lies outside
the extras section, so an extras-key lookup lands in the extras section. -/
theorem jsonLookup_payload_extraKey (details : EpaycoPaymentDetails)
    (isTestMode : Bool) (k : String) (hk : k ∈ extrasKeyList) :
    jsonLookup (mapPaymentDetailsToEpaycoRequest details isTestMode) k =
      jsonLookup (extrasSection details.extras) k := by
  fin_cases hk <;>
  · unfold mapPaymentDetailsToEpaycoRequest
    simp [jsonLookup_append, basePayloadFields, jsonLookup, jsonLookup_optField,
      jsonLookup_methodsSection_eq, jsonLookup_splitSection_eq, extraKey]

/-- The unconditional payload fields contribute nothing to the
extras-keyed filter. -/
theorem filter_baseFields (details : EpaycoPaymentDetails) (isTestMode : Bool) :
    (basePayloadFields details isTestMode).filter
      (fun kv => decide (kv.1 ∈ extrasKeyList)) = [] := by
  simp [basePayloadFields, List.filter, extrasKeyList, extraKey]

/-- A conditional spread under a key outside the extras key list
contributes nothing to the extras-keyed filter. -/
theorem filter_optField_drop (k : String) (o : Option α) (f : α → JsonVal)
    (h : ¬ k ∈ extrasKeyList) :
    (optField k o f).filter (fun kv => decide (kv.1 ∈ extrasKeyList)) = [] := by
  cases o <;> simp [optField, List.filter, h]

/-- A conditional spread under an extras key survives the extras-keyed
filter unchanged. -/
theorem filter_optField_keep (k : String) (o : Option α) (f : α → JsonVal)
    (h : k ∈ extrasKeyList) :
    (optField k o f).filter (fun kv => decide (kv.1 ∈ extrasKeyList)) =
      optField k o f := by
  cases o <;> simp [optField, List.filter, h]

/-- The `methodsDisable` section contributes nothing to the extras-keyed
filter. -/
theorem filter_methodsSection (md : Option (List String)) :
    (methodsDisableSection md).filter (fun kv => decide (kv.1 ∈ extrasKeyList)) = [] := by
  rcases md with _ | ms
  · rfl
  · by_cases hl : ms.length > 0 <;>
      simp [methodsDisableSection, hl, List.filter, extrasKeyList, extraKey]

/-- The `splitPayment` section contributes nothing to the extras-keyed
filter. -/
theorem filter_splitSection (sp : Option EpaycoSplitPayment) :
    (splitPaymentSection sp).filter (fun kv => decide (kv.1 ∈ extrasKeyList)) = [] := by
  rcases sp with _ | sp <;>
    simp [splitPaymentSection, List.filter, extrasKeyList, extraKey]

/-- The extras loop output survives the extras-keyed filter unchanged. -/
theorem filter_extrasFields (ex : EpaycoExtras) :
    (extrasFields ex).filter (fun kv => decide (kv.1 ∈ extrasKeyList)) =
      extrasFields ex := by
  simp only [extrasFields, List.filter_append,
    filter_optField_keep _ _ _ (by decide : extraKey 1 ∈ extrasKeyList),
    filter_optField_keep _ _ _ (by decide : extraKey 2 ∈ extrasKeyList),
    filter_optField_keep _ _ _ (by decide : extraKey 3 ∈ extrasKeyList),
    filter_optField_keep _ _ _ (by decide : extraKey 4 ∈ extrasKeyList),
    filter_optField_keep _ _ _ (by decide : extraKey 5 ∈ extrasKeyList),
    filter_optField_keep _ _ _ (by decide : extraKey 6 ∈ extrasKeyList),
    filter_optField_keep _ _ _ (by decide : extraKey 7 ∈ extrasKeyList),
    filter_optField_keep _ _ _ (by decide : extraKey 8 ∈ extrasKeyList),
    filter_optField_keep _ _ _ (by decide : extraKey 9 ∈ extrasKeyList),
    filter_optField_keep _ _ _ (by decide : extraKey 10 ∈ extrasKeyList)]

/-- C7: when extras are supplied, the payload's `extraN` key holds exactly
the stringified slot-`N` value for each of the ten slots (so an absent
slot yields no key at all), and the extras-keyed entries of the payload
are exactly the loop's output — the present slots in ascending slot
order. -/
theorem mapPaymentDetails_extras_contract (details : EpaycoPaymentDetails)
    (ex : EpaycoExtras) (isTestMode : Bool) (hex : details.extras = some ex) :
    (∀ i, 1 ≤ i → i ≤ 10 →
        jsonLookup (mapPaymentDetailsToEpaycoRequest details isTestMode) (extraKey i) =
          (extraSlot ex i).map JsonVal.str) ∧
    (mapPaymentDetailsToEpaycoRequest details isTestMode).filter
        (fun kv => decide (kv.1 ∈ extrasKeyList)) = extrasFields ex := by
  constructor
  · intro i hi1 hi2
    have hk : extraKey i ∈ extrasKeyList := by
      interval_cases i <;> decide
    rw [jsonLookup_payload_extraKey details isTestMode _ hk, hex]
    exact jsonLookup_extrasFields ex i hi1 hi2
  · unfold mapPaymentDetailsToEpaycoRequest
    rw [hex]
    simp only [List.filter_append, filter_baseFields, filter_methodsSection,
      filter_splitSection,
      filter_optField_drop "invoice" _ _ (by decide),
      filter_optField_drop "taxBase" _ _ (by decide),
      filter_optField_drop "tax" _ _ (by decide),
      filter_optField_drop "taxIco" _ _ (by decide),
      show extrasSection (some ex) = extrasFields ex from rfl,
      filter_extrasFields]
    simp

/-- Witness for C7: extras holding only `extra5` yield the key `extra5`
with its value, no key for the absent slot 1, and exactly one extras
entry overall. -/
theorem mapPaymentDetails_extras_contract_witness :
    extra5Details.extras = some onlyExtra5 ∧
    jsonLookup (mapPaymentDetailsToEpaycoRequest extra5Details true) (extraKey 5) =
      (extraSlot onlyExtra5 5).map JsonVal.str ∧
    jsonLookup (mapPaymentDetailsToEpaycoRequest extra5Details true) (extraKey 1) =
      (extraSlot onlyExtra5 1).map JsonVal.str ∧
    (mapPaymentDetailsToEpaycoRequest extra5Details true).filter
        (fun kv => decide (kv.1 ∈ extrasKeyList)) = extrasFields onlyExtra5 :=
  ⟨rfl,
   (mapPaymentDetails_extras_contract extra5Details onlyExtra5 true rfl).1 5
     (by decide) (by decide),
   (mapPaymentDetails_extras_contract extra5Details onlyExtra5 true rfl).1 1
     (by decide) (by decide),
   (mapPaymentDetails_extras_contract extra5Details onlyExtra5 true rfl).2⟩

/-- C8 counterexample: a `methodsDisable` that is present in the input as
the empty array is nevertheless absent from the canonicalizer output, so
"appears if and only if present" fails in the only-if direction. -/
theorem mapPaymentDetails_methodsDisable_counterexample :
    emptyMethodsDetails.methodsDisable.isSome = true ∧
    jsonLookup (mapPaymentDetailsToEpaycoRequest emptyMethodsDetails true)
      "methodsDisable" = none :=
  ⟨rfl, rfl⟩

/-- C8 as amended: `invoice`, `taxBase`, `tax` and `taxIco` appear in the
output exactly when present in the input (absent ones are omitted, not
emitted as null or empty), while `methodsDisable` appears exactly when it
is present AND non-empty. -/
theorem mapPaymentDetails_optional_fields (details : EpaycoPaymentDetails)
    (isTestMode : Bool) :
    ((jsonLookup (mapPaymentDetailsToEpaycoRequest details isTestMode)
        "invoice").isSome = details.invoice.isSome) ∧
    ((jsonLookup (mapPaymentDetailsToEpaycoRequest details isTestMode)
        "taxBase").isSome = details.taxBase.isSome) ∧
    ((jsonLookup (mapPaymentDetailsToEpaycoRequest details isTestMode)
        "tax").isSome = details.tax.isSome) ∧
    ((jsonLookup (mapPaymentDetailsToEpaycoRequest details isTestMode)
        "taxIco").isSome = details.taxIco.isSome) ∧
    ((jsonLookup (mapPaymentDetailsToEpaycoRequest details isTestMode)
        "methodsDisable").isSome = true ↔
      ∃ ms, details.methodsDisable = some ms ∧ ms ≠ []) := by
  refine ⟨?_, ?_, ?_, ?_, ?_⟩
  · unfold mapPaymentDetailsToEpaycoRequest
    rcases hv : details.invoice with _ | v <;>
      simp [jsonLookup_append, basePayloadFields, jsonLookup, jsonLookup_optField,
        hv, jsonLookup_methodsSection_eq, jsonLookup_splitSection_eq,
        jsonLookup_extrasSection_ne details.extras "invoice" (by decide)]
  · unfold mapPaymentDetailsToEpaycoRequest
    rcases hv : details.taxBase with _ | v <;>
      simp [jsonLookup_append, basePayloadFields, jsonLookup, jsonLookup_optField,
        hv, jsonLookup_methodsSection_eq, jsonLookup_splitSection_eq,
        jsonLookup_extrasSection_ne details.extras "taxBase" (by decide)]
  · unfold mapPaymentDetailsToEpaycoRequest
    rcases hv : details.tax with _ | v <;>
      simp [jsonLookup_append, basePayloadFields, jsonLookup, jsonLookup_optField,
        hv, jsonLookup_methodsSection_eq, jsonLookup_splitSection_eq,
        jsonLookup_extrasSection_ne details.extras "tax" (by decide)]
  · unfold mapPaymentDetailsToEpaycoRequest
    rcases hv : details.taxIco with _ | v <;>
      simp [jsonLookup_append, basePayloadFields, jsonLookup, jsonLookup_optField,
        hv, jsonLookup_methodsSection_eq, jsonLookup_splitSection_eq,
        jsonLookup_extrasSection_ne details.extras "taxIco" (by decide)]
  · unfold mapPaymentDetailsToEpaycoRequest
    rcases hv : details.methodsDisable with _ | ms
    · simp [jsonLookup_append, basePayloadFields, jsonLookup, jsonLookup_optField,
        hv, jsonLookup_methodsSection_eq, jsonLookup_splitSection_eq,
        jsonLookup_extrasSection_ne details.extras "methodsDisable" (by decide)]
    · by_cases hl : ms.length > 0 <;>
        simp [jsonLookup_append, basePayloadFields, jsonLookup, jsonLookup_optField,
          hv, hl, jsonLookup_methodsSection_eq, jsonLookup_splitSection_eq,
          jsonLookup_extrasSection_ne details.extras "methodsDisable" (by decide),
          List.length_pos, ← List.length_eq_zero]

end EpaycoSdk
